import Mathlib

/-!
Shallow embedding of `src/index.ts` (supermemory-omi): the per-session
message buffering, sentence-boundary flushing, trigger-window and
recall-dispatch logic of the `POST /webhook` handler, together with the
stale-buffer reaper it schedules.

Conventions of the embedding:
* JavaScript timestamps (`Date.now()`) are natural numbers (milliseconds).
* Similarity distances returned by the vector store are rationals; the
  JavaScript comparison `searchResults?.distances?.[0]?.[0] <= 0.4`
  evaluates to `false` when the distance is `undefined` (absent list or
  empty list), which is modelled by matching on the optional head.
* The external providers (embedding, vector store, chat completion) are
  parameters: a flush takes a flag saying whether the awaited embed/store
  call succeeds (a failure is a thrown `ProviderError`, modelled with
  `Except`), and the recall callback takes the query result and the
  completion function.
* `MemoryManager.buffers` (a JavaScript object keyed by session id) is a
  total function `String → Option MessageBuffer`.
-/

/-- `MessageBuffer` of src/index.ts lines 11-20.  Field names follow the
source; the three timestamps are milliseconds. -/
structure MessageBuffer where
  messages : List String
  triggerDetected : Bool
  triggerTime : Nat
  collectedQuestion : List String
  responseSent : Bool
  partialTrigger : Bool
  partialTriggerTime : Nat
  lastActivity : Nat
  deriving DecidableEq

/-- `BufferStore` of src/index.ts lines 22-24: the registry
`MemoryManager.buffers`, a JavaScript object keyed by session id. -/
def BufferStore : Type := String → Option MessageBuffer

/-- The JavaScript assignment `this.buffers[sessionId] = b`. -/
def BufferStore.set (bs : BufferStore) (sessionId : String) (b : MessageBuffer) :
    BufferStore :=
  fun k => if k = sessionId then some b else bs k

/-- `TRIGGER_PHRASES` of src/index.ts line 60. -/
def TRIGGER_PHRASES : List String := ["forgot", "don't remember"]

/-- `SIMILARITY_THRESHOLD` of src/index.ts line 61 (0.4, as a rational). -/
def SIMILARITY_THRESHOLD : ℚ := Rat.divInt 2 5

/-- `BUFFER_TIMEOUT` of src/index.ts line 62 (milliseconds). -/
def BUFFER_TIMEOUT : Nat := 5000

/-- `QUESTION_COLLECTION_TIMEOUT` of src/index.ts line 63 (milliseconds). -/
def QUESTION_COLLECTION_TIMEOUT : Nat := 2000

/-- Whether the first list starts the second one (character-wise). -/
def leadsWith : List Char → List Char → Bool
  | [], _ => true
  | _ :: _, [] => false
  | a :: as, b :: bs => a == b && leadsWith as bs

/-- Substring containment on character lists. -/
def includesAux (needle : List Char) : List Char → Bool
  | [] => needle.isEmpty
  | c :: rest => leadsWith needle (c :: rest) || includesAux needle rest

/-- JavaScript `haystack.includes(needle)`: substring containment, as used
on the lower-cased fragment at src/index.ts line 250. -/
def strIncludes (haystack needle : String) : Bool :=
  includesAux needle.data haystack.data

/-- JavaScript `segment.text.toLowerCase()` (src/index.ts line 240):
`Char.toLower` mapped over the characters (the fragments of interest are
ASCII, where the two agree). -/
def jsToLower (s : String) : String :=
  String.mk (s.data.map Char.toLower)

/-- The test `text.match(/[.!?]$/)` of src/index.ts line 245: the fragment
ends in a sentence-terminal punctuation mark. -/
def endsTerminal (text : String) : Bool :=
  match text.data.getLast? with
  | some c => c == '.' || c == '!' || c == '?'
  | none => false

/-- The flush condition of src/index.ts line 245 for one lower-cased
fragment inside a batch of `batchSize` segments: a sentence boundary, or a
single long fragment sent alone (`segments.length === 1 && text.length > 50`). -/
def shouldFlush (batchSize : Nat) (text : String) : Bool :=
  endsTerminal text || (batchSize == 1 && decide (50 < text.length))

/-- The buffer `MemoryManager.getBuffer` creates on first reference
(src/index.ts lines 94-103), with `lastActivity = Date.now()`. -/
def freshBuffer (now : Nat) : MessageBuffer :=
  { messages := [], triggerDetected := false, triggerTime := 0,
    collectedQuestion := [], responseSent := false, partialTrigger := false,
    partialTriggerTime := 0, lastActivity := now }

/-- `MemoryManager.getBuffer` (src/index.ts lines 92-106): returns the
existing entry or lazily inserts a fresh one; entries are never removed. -/
def getBuffer (bs : BufferStore) (sessionId : String) (now : Nat) :
    MessageBuffer × BufferStore :=
  match bs sessionId with
  | some b => (b, bs)
  | none => (freshBuffer now, bs.set sessionId (freshBuffer now))

/-- The body of `MemoryManager.processBuffer` (src/index.ts lines 108-115)
acting on the buffer it read.  `ok` says whether the awaited `saveMemory`
call (embedding plus vector-store add) succeeds; `stored` is the log of
texts handed to the memory store so far.  On success the messages joined
with single spaces are appended to the log and `messages` is cleared by the
assignment that follows the `await`; on failure the throw happens before
that assignment, so `messages` is left as it was. -/
def processBufferOn (ok : Bool) (stored : List String) (b : MessageBuffer) :
    Except Unit (List String) × MessageBuffer :=
  if 0 < b.messages.length then
    if ok then
      (Except.ok (stored ++ [String.intercalate " " b.messages]),
       { b with messages := [] })
    else (Except.error (), b)
  else (Except.ok stored, b)

/-- `MemoryManager.processBuffer sessionId` (src/index.ts lines 108-115):
re-reads the session's buffer through `getBuffer` and flushes it. -/
def processBuffer (ok : Bool) (stored : List String) (bs : BufferStore)
    (sessionId : String) (now : Nat) : Except Unit (List String) × BufferStore :=
  match getBuffer bs sessionId now with
  | (b, bs1) =>
    match processBufferOn ok stored b with
    | (r, b1) => (r, bs1.set sessionId b1)

/-- The trigger-phrase handling of src/index.ts lines 250-286 for one
lower-cased fragment: if any trigger phrase is a substring, either open a
question-collection window (set `triggerDetected`, `triggerTime`,
`collectedQuestion = [text]` and schedule the one-shot recall timer with
delay `QUESTION_COLLECTION_TIMEOUT`) or, when one is already open, append
the fragment to `collectedQuestion` and schedule nothing.  The scheduled
delay, if any, is returned next to the updated buffer. -/
def triggerStep (now : Nat) (b : MessageBuffer) (text : String) :
    MessageBuffer × Option Nat :=
  if TRIGGER_PHRASES.any (fun phrase => strIncludes text phrase) then
    if !b.triggerDetected then
      ({ b with triggerDetected := true, triggerTime := now,
                collectedQuestion := [text] }, some QUESTION_COLLECTION_TIMEOUT)
    else
      ({ b with collectedQuestion := b.collectedQuestion ++ [text] }, none)
  else (b, none)

/-- The part of a Chroma `collection.query` result the recall callback
reads (src/index.ts lines 130-143 and 263-270): per-query parallel lists
of documents and of ascending distances, modelled with rational
distances. -/
structure QueryRes where
  documents : List (List String)
  distances : List (List ℚ)
  deriving DecidableEq

/-- What the recall callback can deliver back to the caller: the fixed
"nothing remembered" message of src/index.ts line 267, or a generated
answer. -/
inductive RecallResponse where
  | nothingRemembered
  | answer (text : String)
  deriving DecidableEq

/-- JavaScript `searchResults?.distances?.[0]?.[0] <= SIMILARITY_THRESHOLD`
(src/index.ts line 263): comparing `undefined` with a number is `false`. -/
def jsLeThreshold : Option ℚ → Bool
  | some d => decide (d ≤ SIMILARITY_THRESHOLD)
  | none => false

/-- The `setTimeout` recall callback of src/index.ts lines 257-282.
`search` stands for `searchMemories` applied to the joined question
(returning `none` models an `undefined` result) and `gen` for
`generateResponse` (question and joined context to answer text).  The
guard is line 258; an empty `documents[0]` array is truthy in JavaScript,
so the accept condition of line 263 is `documents[0]` being present
together with the distance comparison; both accept sub-branches `return`
after setting `responseSent`, and only the non-accepted path runs the
resets of lines 279-280. -/
def dispatchTimer (gen : String → String → String)
    (search : String → Option QueryRes) (b : MessageBuffer) :
    MessageBuffer × Option RecallResponse :=
  if b.triggerDetected && !b.responseSent then
    let fullQuestion := String.intercalate " " b.collectedQuestion
    let sr := search fullQuestion
    let docs0 : Option (List String) := sr.bind (fun r => r.documents.head?)
    let dist0 : Option ℚ := sr.bind (fun r => (r.distances.head?).bind List.head?)
    if docs0.isSome && jsLeThreshold dist0 then
      match docs0 with
      | some docs =>
        if docs.length == 0 then
          ({ b with responseSent := true }, some RecallResponse.nothingRemembered)
        else
          ({ b with responseSent := true },
           some (RecallResponse.answer
             (gen fullQuestion (String.intercalate "\n" docs))))
      | none => (b, none)
    else
      ({ b with triggerDetected := false, collectedQuestion := [] }, none)
  else (b, none)

/-- Intermediate state of the `/webhook` segment loop (src/index.ts lines
239-287): the session's buffer, the log of texts handed to the memory
store so far in this request, and whether a question-collection timer has
been scheduled. -/
structure IngestState where
  buffer : MessageBuffer
  stored : List String
  recallScheduled : Bool
  deriving DecidableEq

/-- One iteration of the `/webhook` segment loop (src/index.ts lines
239-287): lower-case the text, append it to `messages`, refresh
`lastActivity`, flush when the fragment ends a sentence or is a single
long fragment sent alone, then run the trigger check.  The returned flag
is `false` when the awaited flush threw: the loop (and the whole handler)
aborts there, after the append but before the trigger check of that
fragment. -/
def ingestSegment (ok : Bool) (batchSize now : Nat) (st : IngestState)
    (segText : String) : IngestState × Bool :=
  let text := jsToLower segText
  let b1 := { st.buffer with messages := st.buffer.messages ++ [text],
                             lastActivity := now }
  if shouldFlush batchSize text then
    match processBufferOn ok st.stored b1 with
    | (Except.error _, b2) => ({ st with buffer := b2 }, false)
    | (Except.ok stored1, b2) =>
      match triggerStep now b2 text with
      | (b3, timer) =>
        ({ buffer := b3, stored := stored1,
           recallScheduled := st.recallScheduled || timer.isSome }, true)
  else
    match triggerStep now b1 text with
    | (b3, timer) =>
      ({ buffer := b3, stored := st.stored,
         recallScheduled := st.recallScheduled || timer.isSome }, true)

/-- The `for (const segment of segments)` loop of src/index.ts lines
239-287, stopping at the first failed flush (the throw propagates out of
the handler). -/
def runSegments (ok : Bool) (batchSize now : Nat) :
    List String → IngestState → IngestState × Bool
  | [], st => (st, true)
  | t :: rest, st =>
    match ingestSegment ok batchSize now st t with
    | (st1, false) => (st1, false)
    | (st1, true) => runSegments ok batchSize now rest st1

/-- Outcome of one `POST /webhook` request (src/index.ts lines 224-298):
a 400 for a missing session id; otherwise the per-request
`MemoryManager`'s registry after the loop, the log of texts handed to the
memory store, and whether a recall timer was scheduled.  On the `ok` path
the handler also schedules a stale-buffer reaper and answers
`{status:'success'}`; on `providerError` the throw of a flush propagates
out of the handler and the reaper of line 290 is never scheduled. -/
inductive WebhookOutcome where
  | badRequest
  | ok (buffers : BufferStore) (stored : List String) (recallScheduled : Bool)
  | providerError (buffers : BufferStore) (stored : List String)

/-- `app.post('/webhook')` (src/index.ts lines 224-298).  The handler
constructs a new `MemoryManager` for every request (line 234), so the
registry it reads and writes starts empty on every call. -/
def handleWebhook (storeOk : Bool) (now : Nat) (sessionId : Option String)
    (segments : List String) : WebhookOutcome :=
  match sessionId with
  | none => WebhookOutcome.badRequest
  | some sid =>
    let freshManager : BufferStore := fun _ => none
    match getBuffer freshManager sid now with
    | (b, bs1) =>
      match runSegments storeOk segments.length now segments
          { buffer := b, stored := [], recallScheduled := false } with
      | (st, true) =>
        WebhookOutcome.ok (bs1.set sid st.buffer) st.stored st.recallScheduled
      | (st, false) =>
        WebhookOutcome.providerError (bs1.set sid st.buffer) st.stored

/-- The buffer registry a finished `/webhook` request leaves behind. -/
def WebhookOutcome.buffersOf : WebhookOutcome → BufferStore
  | WebhookOutcome.badRequest => fun _ => none
  | WebhookOutcome.ok bs _ _ => bs
  | WebhookOutcome.providerError bs _ => bs

/-- The texts a `/webhook` request handed to the memory store, in order. -/
def WebhookOutcome.storedOf : WebhookOutcome → List String
  | WebhookOutcome.badRequest => []
  | WebhookOutcome.ok _ stored _ => stored
  | WebhookOutcome.providerError _ stored => stored

/-- The stale-buffer reaper scheduled at the end of every successful
`/webhook` request (src/index.ts lines 290-295): when it fires it re-reads
the session's buffer from its own request's `memoryManager` and flushes
exactly when `Date.now() - buffer.lastActivity >= BUFFER_TIMEOUT`
(truncated `Nat` subtraction agrees with the JavaScript comparison, the
difference being negative exactly when the `Nat` difference is zero). -/
def reaperFire (ok : Bool) (fireNow : Nat) (stored : List String)
    (bs : BufferStore) (sessionId : String) :
    Except Unit (List String) × BufferStore :=
  match getBuffer bs sessionId fireNow with
  | (b, bs1) =>
    if BUFFER_TIMEOUT ≤ fireNow - b.lastActivity then
      processBuffer ok stored bs1 sessionId fireNow
    else (Except.ok stored, bs1)

/-- The per-session buffer states one `MemoryManager` instance can reach:
creation by `getBuffer`, the per-segment ingestion step (append, possible
flush, trigger check), a firing of the recall callback, and a firing of
the reaper's flush. -/
inductive Reachable : MessageBuffer → Prop where
  | init (now : Nat) : Reachable (freshBuffer now)
  | seg (ok : Bool) (batchSize now : Nat) (stored : List String)
      (recallScheduled : Bool) (text : String) {b : MessageBuffer} :
      Reachable b →
      Reachable (ingestSegment ok batchSize now
        { buffer := b, stored := stored, recallScheduled := recallScheduled }
        text).1.buffer
  | timer (gen : String → String → String) (search : String → Option QueryRes)
      {b : MessageBuffer} : Reachable b → Reachable (dispatchTimer gen search b).1
  | reap (ok : Bool) (stored : List String) {b : MessageBuffer} :
      Reachable b → Reachable (processBufferOn ok stored b).2

/-- A buffer with an open, unresolved question-collection window, as it
stands right after a trigger fragment was ingested. -/
def openWindowBuffer : MessageBuffer :=
  { messages := [], triggerDetected := true, triggerTime := 0,
    collectedQuestion := ["i forgot the name"], responseSent := false,
    partialTrigger := false, partialTriggerTime := 0, lastActivity := 0 }

/-- A stand-in for `generateResponse`: a completion provider that always
answers `"ans"`. -/
def constAnswer : String → String → String := fun _ _ => "ans"

/-- A query result whose best match is well inside the similarity
threshold (distance 0.1). -/
def nearSearch : String → Option QueryRes :=
  fun _ => some { documents := [["the name is bob"]],
                  distances := [[Rat.divInt 1 10]] }

/-- A query result with a non-empty document list whose best distance is
0.41, just past the similarity threshold. -/
def farSearch : String → Option QueryRes :=
  fun _ => some { documents := [["the name is bob"]],
                  distances := [[Rat.divInt 41 100]] }

/-- A buffer holding one unflushed fragment. -/
def bufferedHello : MessageBuffer := { freshBuffer 0 with messages := ["hello"] }

/-- A registry holding one session with an empty (already flushed)
buffer. -/
def demoStore : BufferStore := BufferStore.set (fun _ => none) "s" (freshBuffer 0)

/-- A 60-character fragment with no sentence-terminal punctuation. -/
def longFragment : String := String.mk (List.replicate 60 'a')

/-- The registry left behind by a request that ingested the single short
unpunctuated fragment `"hello"` for session `"s"` at time 0. -/
def requestOneBuffers : BufferStore :=
  (handleWebhook true 0 (some "s") ["hello"]).buffersOf

/-- A flush never touches the trigger state: `processBuffer` only reads
and clears `messages`. -/
theorem processBufferOn_fields (ok : Bool) (stored : List String)
    (b : MessageBuffer) :
    (processBufferOn ok stored b).2.triggerDetected = b.triggerDetected ∧
    (processBufferOn ok stored b).2.responseSent = b.responseSent ∧
    (processBufferOn ok stored b).2.collectedQuestion = b.collectedQuestion := by
  unfold processBufferOn
  split
  · split <;> exact ⟨rfl, rfl, rfl⟩
  · exact ⟨rfl, rfl, rfl⟩

/-- The trigger check never writes `responseSent`, and never closes an
already-open window. -/
theorem triggerStep_fields (now : Nat) (b : MessageBuffer) (text : String) :
    (triggerStep now b text).1.responseSent = b.responseSent ∧
    (b.triggerDetected = true → (triggerStep now b text).1.triggerDetected = true) := by
  unfold triggerStep
  split
  · split
    · exact ⟨rfl, fun _ => rfl⟩
    · exact ⟨rfl, fun htd => htd⟩
  · exact ⟨rfl, fun htd => htd⟩

/-- Case analysis of the recall callback when its guard passes: it either
generates an answer from a non-empty first document list, returns the
"nothing remembered" message for a present-but-empty document list, or
rejects and resets the window. -/
theorem dispatch_cases (gen : String → String → String)
    (search : String → Option QueryRes) (b : MessageBuffer)
    (htd : b.triggerDetected = true) (hrs : b.responseSent = false) :
    (∃ docs : List String, docs ≠ [] ∧
      dispatchTimer gen search b =
        ({ b with responseSent := true },
         some (RecallResponse.answer
           (gen (String.intercalate " " b.collectedQuestion)
                (String.intercalate "\n" docs))))) ∨
    dispatchTimer gen search b =
      ({ b with responseSent := true }, some RecallResponse.nothingRemembered) ∨
    dispatchTimer gen search b =
      ({ b with triggerDetected := false, collectedQuestion := [] }, none) := by
  have hguard : (b.triggerDetected && !b.responseSent) = true := by
    rw [htd, hrs]; rfl
  simp only [dispatchTimer, hguard, if_true]
  cases hsr : search (String.intercalate " " b.collectedQuestion) with
  | none => right; right; simp
  | some r =>
    obtain ⟨docsL, distsL⟩ := r
    cases docsL with
    | nil => right; right; simp
    | cons docs0 docsRest =>
      cases hjl : jsLeThreshold ((distsL.head?).bind List.head?) with
      | false => right; right; simp [hjl]
      | true =>
        cases hd0 : docs0 with
        | nil => right; left; simp [hjl]
        | cons c cs =>
          left
          exact ⟨c :: cs, by simp, by simp [hjl]⟩

/-- After any firing of the recall callback the guard of line 258 is
false: every branch either marks `responseSent` or clears
`triggerDetected`, and a no-op firing leaves the guard false as it was. -/
theorem dispatch_guard_after (gen : String → String → String)
    (search : String → Option QueryRes) (b : MessageBuffer) :
    (dispatchTimer gen search b).1.triggerDetected = false ∨
    (dispatchTimer gen search b).1.responseSent = true := by
  cases htd : b.triggerDetected with
  | false =>
    have hnoop : dispatchTimer gen search b = (b, none) := by
      unfold dispatchTimer; rw [htd]; rfl
    rw [hnoop]; left; exact htd
  | true =>
    cases hrs : b.responseSent with
    | true =>
      have hnoop : dispatchTimer gen search b = (b, none) := by
        unfold dispatchTimer; rw [htd, hrs]; rfl
      rw [hnoop]; right; exact hrs
    | false =>
      rcases dispatch_cases gen search b htd hrs with ⟨docs, _, heq⟩ | heq | heq <;>
        rw [heq]
      · right; rfl
      · right; rfl
      · left; rfl

/-- The per-segment ingestion step never writes `responseSent` and never
closes an open window: it only appends, flushes, and runs the trigger
check. -/
theorem ingestSegment_fields (ok : Bool) (batchSize now : Nat)
    (st : IngestState) (text : String) :
    (ingestSegment ok batchSize now st text).1.buffer.responseSent =
      st.buffer.responseSent ∧
    (st.buffer.triggerDetected = true →
      (ingestSegment ok batchSize now st text).1.buffer.triggerDetected = true) := by
  simp only [ingestSegment]
  split
  · split
    · rename_i e b2 heq
      have hf := processBufferOn_fields ok st.stored
        { st.buffer with messages := st.buffer.messages ++ [jsToLower text],
                         lastActivity := now }
      rw [heq] at hf
      simp only [Prod.snd] at hf
      constructor
      · show b2.responseSent = st.buffer.responseSent
        exact hf.2.1
      · intro htd
        show b2.triggerDetected = true
        rw [hf.1]
        exact htd
    · rename_i stored1 b2 heq
      have hf := processBufferOn_fields ok st.stored
        { st.buffer with messages := st.buffer.messages ++ [jsToLower text],
                         lastActivity := now }
      rw [heq] at hf
      simp only [Prod.snd] at hf
      have ht := triggerStep_fields now b2 (jsToLower text)
      constructor
      · show (triggerStep now b2 (jsToLower text)).1.responseSent =
          st.buffer.responseSent
        rw [ht.1, hf.2.1]
      · intro htd
        show (triggerStep now b2 (jsToLower text)).1.triggerDetected = true
        exact ht.2 (by rw [hf.1]; exact htd)
  · have ht := triggerStep_fields now
      { st.buffer with messages := st.buffer.messages ++ [jsToLower text],
                       lastActivity := now } (jsToLower text)
    exact ⟨ht.1, fun htd => ht.2 htd⟩

/-- Inductive invariant over all reachable buffer states of one
`MemoryManager` instance: `responseSent` is true only while
`triggerDetected` still is — no step of the code sets `responseSent`
while the window is closed. -/
theorem reachable_responseSent_imp_trigger {b : MessageBuffer}
    (h : Reachable b) : b.responseSent = true → b.triggerDetected = true := by
  induction h with
  | init now => intro hrs; simp [freshBuffer] at hrs
  | seg ok batchSize now stored recallScheduled text hb ih =>
    rename_i b
    intro hrs
    have hf := ingestSegment_fields ok batchSize now
      { buffer := b, stored := stored, recallScheduled := recallScheduled } text
    rw [hf.1] at hrs
    exact hf.2 (ih hrs)
  | timer gen search hb ih =>
    rename_i b
    intro hrs
    cases htd : b.triggerDetected with
    | false =>
      have hnoop : dispatchTimer gen search b = (b, none) := by
        unfold dispatchTimer; rw [htd]; rfl
      rw [hnoop] at hrs ⊢
      exact ih hrs
    | true =>
      cases hrsb : b.responseSent with
      | true =>
        have hnoop : dispatchTimer gen search b = (b, none) := by
          unfold dispatchTimer; rw [htd, hrsb]; rfl
        rw [hnoop]
        exact htd
      | false =>
        rcases dispatch_cases gen search b htd hrsb with ⟨docs, _, heq⟩ | heq | heq <;>
          rw [heq] at hrs ⊢
        · exact htd
        · exact htd
        · simp [hrsb] at hrs
  | reap ok stored hb ih =>
    rename_i b
    intro hrs
    have hf := processBufferOn_fields ok stored b
    rw [hf.2.1] at hrs
    rw [hf.1]
    exact ih hrs

/-- Evaluation of the recall callback on an open, unresolved window and a
query result whose first document list and first distance are present:
the decision is exactly the comparison of the best distance against
`SIMILARITY_THRESHOLD`, and the "nothing remembered" branch needs the
(present) first document list to be empty. -/
theorem dispatch_eval (gen : String → String → String) (b : MessageBuffer)
    (htd : b.triggerDetected = true) (hrs : b.responseSent = false)
    (docs : List String) (mdocs : List (List String)) (d : ℚ)
    (ds : List ℚ) (mds : List (List ℚ)) :
    dispatchTimer gen (fun _ => some ⟨docs :: mdocs, (d :: ds) :: mds⟩) b =
      if d ≤ SIMILARITY_THRESHOLD then
        if docs = [] then
          ({ b with responseSent := true }, some RecallResponse.nothingRemembered)
        else
          ({ b with responseSent := true },
           some (RecallResponse.answer
             (gen (String.intercalate " " b.collectedQuestion)
                  (String.intercalate "\n" docs))))
      else ({ b with triggerDetected := false, collectedQuestion := [] }, none) := by
  have hguard : (b.triggerDetected && !b.responseSent) = true := by
    rw [htd, hrs]; rfl
  by_cases hd : d ≤ SIMILARITY_THRESHOLD
  · cases docs with
    | nil => simp [dispatchTimer, hguard, jsLeThreshold, hd]
    | cons c cs => simp [dispatchTimer, hguard, jsLeThreshold, hd]
  · simp [dispatchTimer, hguard, jsLeThreshold, hd]

/-- C1: the session-buffer registry is NOT process-wide: `handleWebhook`
constructs a new `MemoryManager` (src/index.ts line 234) on every request,
so a second request for the same session id starts from a fresh default
buffer instead of the one holding the first request's pending messages —
after ingesting `"hi"` at time 0 the registry holds it, but the later
request's registry holds only its own `"more"`. -/
theorem per_request_registry_loses_state :
    (handleWebhook true 0 (some "s") ["hi"]).buffersOf "s" =
      some ⟨["hi"], false, 0, [], false, false, 0, 0⟩ ∧
    (handleWebhook true 3000 (some "s") ["more"]).buffersOf "s" =
      some ⟨["more"], false, 0, [], false, false, 0, 3000⟩ := by
  exact ⟨by decide, by decide⟩

/-- C2 (amended): on completion of a fired trigger-cycle callback whose
guard passed, each outcome branch performs exactly one half of the claimed
postcondition: the answer-producing and "nothing remembered" branches set
`responseSent = true` but leave `triggerDetected` and `collectedQuestion`
unchanged, while the rejected-match branch resets `triggerDetected = false`
and `collectedQuestion = []` but leaves `responseSent = false`. -/
theorem dispatch_branch_effects (gen : String → String → String)
    (search : String → Option QueryRes) (b : MessageBuffer)
    (htd : b.triggerDetected = true) (hrs : b.responseSent = false) :
    ((dispatchTimer gen search b).2.isSome = true →
      (dispatchTimer gen search b).1.responseSent = true ∧
      (dispatchTimer gen search b).1.triggerDetected = true ∧
      (dispatchTimer gen search b).1.collectedQuestion = b.collectedQuestion) ∧
    ((dispatchTimer gen search b).2 = none →
      (dispatchTimer gen search b).1.responseSent = false ∧
      (dispatchTimer gen search b).1.triggerDetected = false ∧
      (dispatchTimer gen search b).1.collectedQuestion = []) := by
  rcases dispatch_cases gen search b htd hrs with ⟨docs, hne, heq⟩ | heq | heq <;>
    rw [heq] <;> constructor
  · exact fun _ => ⟨rfl, htd, rfl⟩
  · intro h; simp at h
  · exact fun _ => ⟨rfl, htd, rfl⟩
  · intro h; simp at h
  · intro h; simp at h
  · exact fun _ => ⟨hrs, rfl, rfl⟩

/-- Witness for C2's amended theorem: a concrete answer-producing firing. -/
theorem dispatch_branch_effects_witness :
    (dispatchTimer constAnswer nearSearch openWindowBuffer).1.responseSent = true ∧
    (dispatchTimer constAnswer nearSearch openWindowBuffer).1.triggerDetected = true :=
  ⟨((dispatch_branch_effects constAnswer nearSearch openWindowBuffer rfl rfl).1
      (by decide)).1,
   ((dispatch_branch_effects constAnswer nearSearch openWindowBuffer rfl rfl).1
      (by decide)).2.1⟩

/-- C2 is false on the code: an answer-producing firing leaves the window
open (`triggerDetected` stays true and `collectedQuestion` keeps the
question), and a rejecting firing resets the window but never sets
`responseSent`. -/
theorem dispatch_completion_counterexample :
    ((dispatchTimer constAnswer nearSearch openWindowBuffer).2 =
        some (RecallResponse.answer "ans") ∧
      (dispatchTimer constAnswer nearSearch openWindowBuffer).1.triggerDetected = true ∧
      (dispatchTimer constAnswer nearSearch openWindowBuffer).1.collectedQuestion =
        ["i forgot the name"]) ∧
    ((dispatchTimer constAnswer farSearch openWindowBuffer).2 = none ∧
      (dispatchTimer constAnswer farSearch openWindowBuffer).1.responseSent = false) := by
  decide

/-- C3 (amended): with an open unresolved window and a query result whose
first document list and best distance are present, a response is delivered
if and only if the best distance is at most `SIMILARITY_THRESHOLD` (0.4 is
accepted; 0.41 is not).  When the best distance exceeds the threshold —
even with a non-empty document list — or when the distance list is empty
(no stored documents), NO message is delivered at all: the callback resets
the window instead.  The fixed "nothing remembered" message is delivered
only when the distance check passes while the first document list is
empty. -/
theorem recall_threshold_behaviour (gen : String → String → String)
    (b : MessageBuffer) (htd : b.triggerDetected = true)
    (hrs : b.responseSent = false) (docs : List String)
    (mdocs : List (List String)) (d : ℚ) (ds : List ℚ)
    (mds : List (List ℚ)) :
    ((dispatchTimer gen (fun _ => some ⟨docs :: mdocs, (d :: ds) :: mds⟩) b).2 ≠ none
        ↔ d ≤ SIMILARITY_THRESHOLD) ∧
    (¬ d ≤ SIMILARITY_THRESHOLD →
      dispatchTimer gen (fun _ => some ⟨docs :: mdocs, (d :: ds) :: mds⟩) b =
        ({ b with triggerDetected := false, collectedQuestion := [] }, none)) ∧
    (d ≤ SIMILARITY_THRESHOLD → docs = [] →
      (dispatchTimer gen (fun _ => some ⟨docs :: mdocs, (d :: ds) :: mds⟩) b).2 =
        some RecallResponse.nothingRemembered) ∧
    (d ≤ SIMILARITY_THRESHOLD → docs ≠ [] →
      (dispatchTimer gen (fun _ => some ⟨docs :: mdocs, (d :: ds) :: mds⟩) b).2 =
        some (RecallResponse.answer
          (gen (String.intercalate " " b.collectedQuestion)
               (String.intercalate "\n" docs)))) ∧
    (∀ (docs1 : List (List String)) (mds1 : List (List ℚ)),
      (dispatchTimer gen (fun _ => some ⟨docs1, ([] : List ℚ) :: mds1⟩) b).2 = none) := by
  have hguard : (b.triggerDetected && !b.responseSent) = true := by
    rw [htd, hrs]; rfl
  have hempty : ∀ (docs1 : List (List String)) (mds1 : List (List ℚ)),
      (dispatchTimer gen (fun _ => some ⟨docs1, ([] : List ℚ) :: mds1⟩) b).2 = none := by
    intro docs1 mds1
    simp [dispatchTimer, hguard, jsLeThreshold]
  refine ⟨?_, ?_, ?_, ?_, hempty⟩ <;>
    rw [dispatch_eval gen b htd hrs docs mdocs d ds mds]
  · by_cases hd : d ≤ SIMILARITY_THRESHOLD
    · by_cases hdocs : docs = [] <;> simp [hd, hdocs]
    · simp [hd]
  · intro hd; simp [hd]
  · intro hd hdocs; simp [hd, hdocs]
  · intro hd hdocs; simp [hd, hdocs]

/-- Witness for C3's amended theorem: a best distance of exactly 0.4 with
a non-empty document list yields a generated answer. -/
theorem recall_threshold_witness :
    (dispatchTimer constAnswer
      (fun _ => some ⟨["the name is bob"] :: [],
                      (SIMILARITY_THRESHOLD :: []) :: []⟩)
      openWindowBuffer).2 = some (RecallResponse.answer "ans") :=
  (recall_threshold_behaviour constAnswer openWindowBuffer rfl rfl
      ["the name is bob"] [] SIMILARITY_THRESHOLD [] []).2.2.2.1 le_rfl (by decide)

/-- C3 is false on the code: at best distance 0.41 with a non-empty
document list the callback delivers nothing at all — the claimed fixed
"nothing remembered" message is not produced; the window is silently
reset. -/
theorem recall_rejection_counterexample :
    (dispatchTimer constAnswer farSearch openWindowBuffer).2 = none ∧
    (dispatchTimer constAnswer farSearch openWindowBuffer).1 =
      { openWindowBuffer with triggerDetected := false,
                              collectedQuestion := [] } := by
  decide

/-- C4 (amended): a failed embed/store call propagates to the caller
un-retried, but it leaves `pendingMessages` UNCHANGED — the clear
`buffer.messages = []` is sequenced after the awaited store call, so it
runs exactly when the call succeeds; no fragment is both successfully
flushed and retained, and none is lost on failure. -/
theorem flush_failure_behaviour (ok : Bool) (stored : List String)
    (b : MessageBuffer) (hne : b.messages ≠ []) :
    (ok = false → processBufferOn ok stored b = (Except.error (), b)) ∧
    (ok = true → processBufferOn ok stored b =
      (Except.ok (stored ++ [String.intercalate " " b.messages]),
       { b with messages := [] })) := by
  have hlen : 0 < b.messages.length := List.length_pos.mpr hne
  constructor <;> intro h <;> subst h <;> unfold processBufferOn <;> simp [hlen]

/-- Witness for C4's amended theorem: a successful flush of `["hello"]`
stores the joined text and clears the buffer. -/
theorem flush_failure_witness :
    processBufferOn true [] bufferedHello =
      (Except.ok ["hello"], { bufferedHello with messages := [] }) :=
  (flush_failure_behaviour true [] bufferedHello (by decide)).2 rfl

/-- C4 is false on the code: when the store call fails, the error
propagates while `messages` still holds the unflushed fragment — it has
NOT been cleared. -/
theorem flush_failure_counterexample :
    processBufferOn false [] bufferedHello = (Except.error (), bufferedHello) ∧
    bufferedHello.messages = ["hello"] :=
  ⟨rfl, rfl⟩

/-- C5: the recall callback acts only when `triggerDetected` is true and
`responseSent` is false (otherwise it is a no-op returning the buffer
unchanged and delivering nothing), and a second firing for the same cycle
is always a no-op: every completing branch of the first firing falsifies
the guard. -/
theorem dispatch_at_most_once :
    (∀ (gen : String → String → String) (search : String → Option QueryRes)
      (b : MessageBuffer),
      b.triggerDetected = false ∨ b.responseSent = true →
      dispatchTimer gen search b = (b, none)) ∧
    (∀ (gen gen1 : String → String → String)
      (search search1 : String → Option QueryRes) (b : MessageBuffer),
      dispatchTimer gen1 search1 (dispatchTimer gen search b).1 =
        ((dispatchTimer gen search b).1, none)) := by
  have noop : ∀ (gen : String → String → String)
      (search : String → Option QueryRes) (b : MessageBuffer),
      b.triggerDetected = false ∨ b.responseSent = true →
      dispatchTimer gen search b = (b, none) := by
    intro gen search b h
    rcases h with h | h
    · unfold dispatchTimer; rw [h]; rfl
    · unfold dispatchTimer; rw [h]; simp
  exact ⟨noop, fun gen gen1 search search1 b =>
    noop gen1 search1 _ (dispatch_guard_after gen search b)⟩

/-- Witness for C5: a concrete double firing; the second is a no-op. -/
theorem dispatch_at_most_once_witness :
    dispatchTimer constAnswer nearSearch
        (dispatchTimer constAnswer nearSearch openWindowBuffer).1 =
      ((dispatchTimer constAnswer nearSearch openWindowBuffer).1, none) :=
  dispatch_at_most_once.2 constAnswer constAnswer nearSearch nearSearch
    openWindowBuffer

/-- C6: ingesting `["hello", "world.", "next"]` in one request flushes
exactly once — right after `"world."` — storing `"hello world."` joined
with single spaces, and leaves `pendingMessages = ["next"]`. -/
theorem sentence_boundary_flush_once :
    (handleWebhook true 0 (some "s") ["hello", "world.", "next"]).storedOf =
      ["hello world."] ∧
    (handleWebhook true 0 (some "s") ["hello", "world.", "next"]).buffersOf "s" =
      some ⟨["next"], false, 0, [], false, false, 0, 0⟩ := by
  decide

/-- C7: an unpunctuated fragment longer than 50 characters triggers an
immediate flush if and only if it is the only fragment of its ingestion
batch; concretely, the 60-character `longFragment` flushes when sent
alone and does not flush when a second fragment rides in the same
batch. -/
theorem long_fragment_heuristic :
    (∀ (text : String) (batchSize : Nat), endsTerminal text = false →
      50 < text.length → (shouldFlush batchSize text = true ↔ batchSize = 1)) ∧
    (handleWebhook true 0 (some "s") [longFragment]).storedOf = [longFragment] ∧
    (handleWebhook true 0 (some "s") [longFragment, "ok"]).storedOf = [] := by
  refine ⟨?_, by decide, by decide⟩
  intro text batchSize hterm hlen
  unfold shouldFlush
  rw [hterm]
  simp [hlen, Nat.beq_eq_true_eq]

/-- Witness for C7: the 60-character fragment alone satisfies the flush
condition. -/
theorem long_fragment_heuristic_witness :
    shouldFlush 1 longFragment = true :=
  (long_fragment_heuristic.1 longFragment 1 (by decide) (by decide)).mpr rfl

/-- C8: in every reachable buffer state, a fragment containing a trigger
phrase opens a window only when none is open — setting `triggerDetected`,
`triggerTime = now`, `collectedQuestion = [text]`, with `responseSent`
false (it was already false, by the reachability invariant) and scheduling
the 2000 ms timer — and while a window is open it only appends the
fragment to `collectedQuestion`, scheduling no new timer. -/
theorem single_trigger_window (now : Nat) (b : MessageBuffer) (text : String)
    (hreach : Reachable b)
    (htrig : TRIGGER_PHRASES.any (fun phrase => strIncludes text phrase) = true) :
    (b.triggerDetected = false →
      triggerStep now b text =
        ({ b with triggerDetected := true, triggerTime := now,
                  collectedQuestion := [text] },
         some QUESTION_COLLECTION_TIMEOUT) ∧
      (triggerStep now b text).1.responseSent = false) ∧
    (b.triggerDetected = true →
      triggerStep now b text =
        ({ b with collectedQuestion := b.collectedQuestion ++ [text] }, none)) := by
  constructor
  · intro htd
    have hrs : b.responseSent = false := by
      cases hrsb : b.responseSent with
      | false => rfl
      | true =>
        have hcontra := reachable_responseSent_imp_trigger hreach hrsb
        rw [htd] at hcontra
        simp at hcontra
    constructor
    · unfold triggerStep
      rw [htrig, htd]
      rfl
    · unfold triggerStep
      rw [htrig, htd]
      show b.responseSent = false
      exact hrs
  · intro htd
    unfold triggerStep
    rw [htrig, htd]
    rfl

/-- Witness for C8: the first `"i forgot"` fragment on a fresh buffer
opens the window and schedules the 2000 ms timer. -/
theorem single_trigger_window_witness :
    triggerStep 5 (freshBuffer 0) "i forgot" =
      ({ freshBuffer 0 with triggerDetected := true, triggerTime := 5,
                            collectedQuestion := ["i forgot"] },
       some QUESTION_COLLECTION_TIMEOUT) :=
  ((single_trigger_window 5 (freshBuffer 0) "i forgot" (Reachable.init 0)
      (by decide)).1 rfl).1

/-- C9: the reaper fires on its own request's registry.  A request at
time 0 leaves `"hello"` pending; a later request for the same session at
time 3000 runs on a different, fresh `MemoryManager` and cannot touch this
registry, whose `lastActivity` stays 0 — so at time 5000 the first
request's reaper passes its staleness check and flushes `"hello"` instead
of being a no-op superseded by the newer activity. -/
theorem reaper_not_superseded :
    requestOneBuffers "s" = some ⟨["hello"], false, 0, [], false, false, 0, 0⟩ ∧
    (handleWebhook true 3000 (some "s") ["more"]).buffersOf "s" =
      some ⟨["more"], false, 0, [], false, false, 0, 3000⟩ ∧
    (reaperFire true 5000 [] requestOneBuffers "s").1 = Except.ok ["hello"] ∧
    (reaperFire true 5000 [] requestOneBuffers "s").2 "s" =
      some ⟨[], false, 0, [], false, false, 0, 0⟩ := by
  refine ⟨by decide, by decide, by rfl, by decide⟩

/-- C10: flushing a session whose buffer exists with no pending messages
is a complete no-op — the result is independent of whether the store call
would succeed (no call is made), the stored log is unchanged, and the
registry (this session's buffer and every other session's) is returned
unchanged; the same holds for a reaper firing over such a session. -/
theorem empty_flush_noop (ok : Bool) (stored : List String) (bs : BufferStore)
    (sessionId : String) (now : Nat) (b : MessageBuffer)
    (hb : bs sessionId = some b) (hm : b.messages = []) :
    processBuffer ok stored bs sessionId now = (Except.ok stored, bs) ∧
    reaperFire ok now stored bs sessionId = (Except.ok stored, bs) := by
  have hget : getBuffer bs sessionId now = (b, bs) := by
    unfold getBuffer; rw [hb]
  have hpo : processBufferOn ok stored b = (Except.ok stored, b) := by
    unfold processBufferOn
    rw [hm]
    rfl
  have hset : bs.set sessionId b = bs := by
    funext k
    unfold BufferStore.set
    by_cases hk : k = sessionId
    · rw [if_pos hk, hk, hb]
    · rw [if_neg hk]
  have hpb : processBuffer ok stored bs sessionId now = (Except.ok stored, bs) := by
    simp only [processBuffer, hget, hpo, hset]
  refine ⟨hpb, ?_⟩
  simp only [reaperFire, hget]
  split
  · exact hpb
  · rfl

/-- Witness for C10: a concrete registry with an empty buffer for `"s"`
through both the direct flush and the reaper. -/
theorem empty_flush_noop_witness :
    processBuffer true [] demoStore "s" 9000 = (Except.ok [], demoStore) ∧
    reaperFire true 9000 [] demoStore "s" = (Except.ok [], demoStore) :=
  empty_flush_noop true [] demoStore "s" 9000 (freshBuffer 0) rfl rfl

